import Mathlib

/-!
Shallow embedding of the slick-network peer-discovery core
(src/peer_discovery.h) and socket layer (src/socket.cpp).

Wall-clock times: the C++ stores `expiration` as a `double` holding a
millisecond deadline and `now` as a `double` in seconds; in the integer
range exercised here the arithmetic (`now * 1000 + ttl`, comparisons,
subtraction guarded by a comparison) is exact, so both are embedded as
naturals (`now` in seconds, `expiration` in milliseconds). `size_t`
values (ttl, delay, handles) are naturals; file descriptors are `Int`
because the code uses -1 as a sentinel.
-/

namespace Slick

/-- UUIDs are opaque identifiers; only equality and ordering matter here. -/
abbrev UUID := Nat

/-- A NodeAddress is an ordered list of (host, port) pairs. -/
abbrev NodeAddress := List (String × Nat)

/-!
## Item store entries (peer_discovery.h, struct Item)
-/

/-- `struct Item { UUID id; NodeAddress addrs; double expiration; }`. -/
structure Item where
  id : UUID
  addrs : NodeAddress
  expiration : Nat
deriving DecidableEq, Repr

/-- The constructor `Item(UUID id, NodeAddress addrs, size_t ttl, double now)`:
`expiration(now * 1000 + ttl)`. -/
def Item.make (id : UUID) (addrs : NodeAddress) (ttl now : Nat) : Item :=
  { id := id, addrs := addrs, expiration := now * 1000 + ttl }

/-- `Item::ttl(double now)`: `if (expiration <= now * 1000) return 0;
return expiration - now * 1000;`. -/
def Item.ttl (i : Item) (now : Nat) : Nat :=
  if i.expiration ≤ now * 1000 then 0 else i.expiration - now * 1000

/-- `Item::setTTL(size_t ttl, double now)`: the body is the single
statement `if (ttl > this->ttl(now)) expiration = now * 1000 + ttl;`,
so the assignment is guarded by the comparison (the indentation in the
source is misleading but the `if` scopes the next statement). -/
def Item.setTTL (i : Item) (ttl now : Nat) : Item :=
  if ttl > i.ttl now then { i with expiration := now * 1000 + ttl } else i

end Slick

namespace Slick

/-!
## Theorems about Item
-/

/-- C1. `setTTL` never decreases the stored expiration; and whenever the
refresh TTL is positive, or the item has not yet expired, the resulting
expiration is exactly the max of the old expiration and the fresh
deadline `now * 1000 + t`. (When `t = 0` and the item is already past
its deadline the guard `ttl > this->ttl(now)` is `0 > 0` and the stored
expiration is kept, falling short of the max.) -/
theorem Item.setTTL_monotone_max (i : Item) (t now : Nat) :
    i.expiration ≤ (i.setTTL t now).expiration ∧
    ((0 < t ∨ now * 1000 ≤ i.expiration) →
      (i.setTTL t now).expiration = max i.expiration (now * 1000 + t)) := by
  unfold Item.setTTL Item.ttl
  split_ifs with h h' <;> simp_all <;> omega

/-- Witness for C1 at a concrete input with a satisfied hypothesis. -/
theorem Item.setTTL_monotone_max_witness :
    ((Item.make 3 [] 0 0).setTTL 5 1).expiration
      = max (Item.make 3 [] 0 0).expiration (1 * 1000 + 5) :=
  (Item.setTTL_monotone_max (Item.make 3 [] 0 0) 5 1).2 (Or.inl (by decide))

/-- C1 counterexample: with `t = 0` on an already-expired item the claim's
unrestricted max equation fails — the code keeps the stale expiration 0
while the max with the fresh deadline is 1000. -/
theorem Item.setTTL_max_cex :
    ((Item.make 0 [] 0 0).setTTL 0 1).expiration
      ≠ max (Item.make 0 [] 0 0).expiration (1 * 1000 + 0) := by
  decide

/-- C2 counterexample: `setTTL` does not unconditionally assign the fresh
deadline. For an item expiring at 10000 ms, `setTTL 1` at second 1 keeps
10000; the claimed unconditional assignment would give 1001. -/
theorem Item.setTTL_not_unconditional :
    ((Item.make 0 [] 10000 0).setTTL 1 1).expiration ≠ 1 * 1000 + 1 := by
  decide

/-- C2 amended: the `if` guards the assignment. Whenever the refresh TTL
does not exceed the current remaining TTL, the expiration is unchanged. -/
theorem Item.setTTL_guarded (i : Item) (t now : Nat)
    (h : t ≤ i.ttl now) :
    (i.setTTL t now).expiration = i.expiration := by
  unfold Item.setTTL
  split_ifs with hgt
  · omega
  · rfl

/-- Witness for the amended C2 theorem at a concrete input. -/
theorem Item.setTTL_guarded_witness :
    ((Item.make 0 [] 10000 0).setTTL 1 1).expiration
      = (Item.make 0 [] 10000 0).expiration :=
  Item.setTTL_guarded (Item.make 0 [] 10000 0) 1 1 (by decide)

/-- C4. A freshly constructed item has `expiration = now * 1000 + t`,
its `ttl` at construction time is exactly `t`, and its `ttl` at any
later instant at or past the deadline is 0 (never underflowed). -/
theorem Item.make_expiration_ttl (id : UUID) (addrs : NodeAddress)
    (t now : Nat) :
    (Item.make id addrs t now).expiration = now * 1000 + t ∧
    (Item.make id addrs t now).ttl now = t ∧
    ∀ now2, now * 1000 + t ≤ now2 * 1000 →
      (Item.make id addrs t now).ttl now2 = 0 := by
  refine ⟨rfl, ?_, ?_⟩
  · simp only [Item.make, Item.ttl]
    split_ifs <;> omega
  · intro now2 h
    simp only [Item.make, Item.ttl]
    split_ifs
    all_goals omega

/-- Witness for C4 at a concrete input. -/
theorem Item.make_expiration_ttl_witness :
    (Item.make 7 [("localhost", 20001)] 500 2).expiration = 2 * 1000 + 500 ∧
    (Item.make 7 [("localhost", 20001)] 500 2).ttl 2 = 500 ∧
    (Item.make 7 [("localhost", 20001)] 500 2).ttl 3 = 0 :=
  ⟨(Item.make_expiration_ttl 7 [("localhost", 20001)] 500 2).1,
   (Item.make_expiration_ttl 7 [("localhost", 20001)] 500 2).2.1,
   (Item.make_expiration_ttl 7 [("localhost", 20001)] 500 2).2.2 3 (by decide)⟩

/-!
## Fetch engine records (peer_discovery.h, struct Fetch / struct FetchExp)
-/

/-- `struct Fetch { NodeAddress node; size_t delay; }`. -/
structure Fetch where
  node : NodeAddress
  delay : Nat
deriving DecidableEq, Repr

/-- The constructor `explicit Fetch(NodeAddress node) : node(...), delay(1)`. -/
def Fetch.make (node : NodeAddress) : Fetch :=
  { node := node, delay := 1 }

/-- `struct FetchExp { std::string key; UUID keyId; double expiration; }`. -/
structure FetchExp where
  key : String
  keyId : UUID
  expiration : Nat
deriving DecidableEq, Repr

/-- The constructor `FetchExp(std::string key, UUID keyId, size_t delay,
double now)`: `expiration(now * 1000 + delay)`. -/
def FetchExp.make (key : String) (keyId : UUID) (delay now : Nat) : FetchExp :=
  { key := key, keyId := keyId, expiration := now * 1000 + delay }

/-- Modelled from the spec: the fetch-scheduling routine lives in
peer_discovery.cpp, which is not part of the sources; only its
declaration (`sendFetch`, `expireFetches`) and the `Fetch`/`FetchExp`
records are in the header. Per §4.4 of the spec, scheduling a fetch
records `delay = 1` (via the `Fetch` constructor) and enqueues
expiration at `now + delay * period_`, i.e. it constructs a `FetchExp`
whose delay argument is `delay * period_` milliseconds. -/
def scheduleFetch (key : String) (keyId : UUID) (node : NodeAddress)
    (period now : Nat) : Fetch × FetchExp :=
  let f := Fetch.make node
  (f, FetchExp.make key keyId (f.delay * period) now)

/-- C3. First scheduling of a fetch records `delay = 1` and enqueues a
`FetchExp` whose deadline is `now` in milliseconds plus `delay` times
the timer period. -/
theorem scheduleFetch_delay_one (key : String) (keyId : UUID)
    (node : NodeAddress) (period now : Nat) :
    (scheduleFetch key keyId node period now).1.delay = 1 ∧
    (scheduleFetch key keyId node period now).2.expiration
      = now * 1000 + (scheduleFetch key keyId node period now).1.delay * period := by
  exact ⟨rfl, rfl⟩

/-!
## Watches (peer_discovery.h, struct Watch; std::set<Watch>)
-/

/-- `struct Watch { WatchHandle handle; WatchFn watch; }`. The callback
type is kept abstract as a type parameter `F`. -/
structure Watch (F : Type) where
  handle : Nat
  watch : F

/-- `Watch::operator<`: `return handle < other.handle;`. -/
def Watch.ltb {F : Type} (a b : Watch F) : Bool :=
  a.handle < b.handle

/-- `std::set<Watch>::insert` over the ordered representation: walk the
ordered elements; an element equivalent to the candidate (neither less
than the other) blocks the insertion. -/
def insertWatch {F : Type} : List (Watch F) → Watch F → List (Watch F)
  | [], w => [w]
  | x :: xs, w =>
    if Watch.ltb w x then w :: x :: xs
    else if Watch.ltb x w then x :: insertWatch xs w
    else x :: xs

/-- C5. The watch ordering depends only on the handle — two watches with
equal handles compare identically against anything, regardless of their
callbacks — and inserting a watch whose handle already occurs in an
ordered watch set leaves the set unchanged. -/
theorem watch_set_dedup_by_handle {F : Type} (s : List (Watch F))
    (w w' : Watch F)
    (hs : s.Pairwise (fun a b => a.handle < b.handle))
    (hmem : w' ∈ s) (hh : w'.handle = w.handle) :
    (∀ a b c : Watch F, a.handle = b.handle →
      Watch.ltb a c = Watch.ltb b c ∧ Watch.ltb c a = Watch.ltb c b) ∧
    insertWatch s w = s := by
  constructor
  · intro a b c hab
    simp [Watch.ltb, hab]
  · induction s with
    | nil => cases hmem
    | cons x xs ih =>
      rcases List.mem_cons.mp hmem with hx | hx
      · have hxw : x.handle = w.handle := hx ▸ hh
        simp [insertWatch, Watch.ltb, hxw]
      · have hlt : x.handle < w.handle := by
          have := (List.pairwise_cons.mp hs).1 w' hx
          omega
        have hrec := ih (List.pairwise_cons.mp hs).2 hx
        simp [insertWatch, Watch.ltb, hlt, Nat.not_lt.mpr (Nat.le_of_lt hlt), hrec]

/-- Witness for C5: inserting a second watch with handle 1 but a
different callback into a singleton set keeps the set unchanged. -/
theorem watch_set_dedup_by_handle_witness :
    insertWatch [Watch.mk 1 (0 : Nat)] (Watch.mk 1 99) = [Watch.mk 1 0] :=
  (watch_set_dedup_by_handle [Watch.mk 1 (0 : Nat)] (Watch.mk 1 99)
    (Watch.mk 1 0) (by simp) (by simp) rfl).2

/-!
## Connection state (peer_discovery.h, struct ConnState)
-/

/-- `struct ConnState { int fd; size_t id; UUID nodeId; uint32_t version;
bool isFetch; std::vector<FetchItem> pendingFetch; }`. -/
structure ConnState where
  fd : Int
  id : Nat
  nodeId : UUID
  version : Nat
  isFetch : Bool
  pendingFetch : List (String × UUID)

/-- `ConnState::initialized`: `return version;` — the `uint32_t` is
converted to `bool`, i.e. compared against zero. -/
def ConnState.initialized (c : ConnState) : Bool :=
  c.version != 0

/-- C7. A connection reports initialized exactly when its protocol
version field is non-zero. -/
theorem ConnState.initialized_iff_version_ne_zero (c : ConnState) :
    c.initialized = true ↔ c.version ≠ 0 := by
  simp [ConnState.initialized]

/-!
## Default configuration constants (peer_discovery.h, enum)
-/

/-- `DefaultPort = 18888`. -/
def DefaultPort : Nat := 18888

/-- `DefaultPeriod = 1000 * 60 * 1`. -/
def DefaultPeriod : Nat := 1000 * 60 * 1

/-- `DefaultTTL = 1000 * 60 * 60 * 8`. -/
def DefaultTTL : Nat := 1000 * 60 * 60 * 8

/-- `DefaultExpThresh = 1000 * 10`. -/
def DefaultExpThresh : Nat := 1000 * 10

/-- C8. The compiled defaults equal the spec's values after unit
conversion: port 18888, TTL 8 h = 28800000 ms, period 60 s = 60000 ms,
handshake expiration threshold 10 s = 10000 ms. -/
theorem default_constants_match_spec :
    DefaultPort = 18888 ∧ DefaultTTL = 28800000 ∧
    DefaultPeriod = 60000 ∧ DefaultExpThresh = 10000 := by
  decide

/-!
## Socket layer (socket.cpp)

The syscall outcomes observed by each constructor-loop iteration are
embedded as explicit records; the loops themselves mirror the source's
`continue`/`break` structure. Errno values are the Linux ones used by
the code paths in question.
-/

/-- Linux errno for EAGAIN. -/
def EAGAIN : Nat := 11

/-- Linux errno for EWOULDBLOCK (same value as EAGAIN on Linux; the code
tests both symbolically and so does the model). -/
def EWOULDBLOCK : Nat := 11

/-- Linux errno for EINPROGRESS. -/
def EINPROGRESS : Nat := 115

/-- `struct Socket { int fd_; sockaddr addr; socklen_t addrlen; }`
(socket.h); the address bytes are opaque here. -/
structure Socket where
  fd : Int
  addr : Nat
  addrlen : Nat
deriving DecidableEq, Repr

/-- One iteration of the `PassiveSockets` constructor loop observes:
whether `socket()` produced an fd, whether `bind` succeeded (`ret < 0`
means failure), and whether `listen` succeeded. -/
structure PassiveIfaceOutcome where
  socketFd : Option Nat
  bindOk : Bool
  listenOk : Bool
deriving DecidableEq, Repr

/-- The `PassiveSockets` constructor loop: `socket()` failure, `bind`
failure or `listen` failure `continue`s; success pushes the fd. -/
def passiveLoop : List PassiveIfaceOutcome → List Nat
  | [] => []
  | it :: rest =>
    match it.socketFd with
    | none => passiveLoop rest
    | some fd =>
      if it.bindOk = false then passiveLoop rest
      else if it.listenOk = false then passiveLoop rest
      else fd :: passiveLoop rest

/-- `PassiveSockets::PassiveSockets`: after the loop,
`if (fds_.empty()) throw std::runtime_error("ERROR: no valid interface")`. -/
def PassiveSockets.construct (ifaces : List PassiveIfaceOutcome) :
    Except String (List Nat) :=
  let fds := passiveLoop ifaces
  if fds.isEmpty then Except.error "ERROR: no valid interface"
  else Except.ok fds

/-- One iteration of the connecting `Socket` constructor loop observes:
whether `socket()` produced an fd, and the `connect` return value and
errno. -/
structure ConnectIfaceOutcome where
  socketFd : Option Nat
  connectRet : Int
  connectErrno : Nat
deriving DecidableEq, Repr

/-- The connecting `Socket` constructor loop:
`if (ret < 0 && errno != EINPROGRESS) continue;` else take the fd and
`break`. Returns -1 when no interface succeeds (the member `fd_` keeps
its initial -1). -/
def connectLoop : List ConnectIfaceOutcome → Int
  | [] => -1
  | it :: rest =>
    match it.socketFd with
    | none => connectLoop rest
    | some fd =>
      if it.connectRet < 0 ∧ it.connectErrno ≠ EINPROGRESS then connectLoop rest
      else (fd : Int)

/-- `Socket::Socket(host, ports, flags)`: after the loop,
`if (fd_ < 0) throw std::runtime_error("ERROR: no valid interface")`. -/
def Socket.construct (ifaces : List ConnectIfaceOutcome) :
    Except String Int :=
  let fd := connectLoop ifaces
  if fd < 0 then Except.error "ERROR: no valid interface"
  else Except.ok fd

/-- C6. If `bind`+`listen` fail on every interface, the `PassiveSockets`
constructor throws; if no interface yields a connectable socket, the
connecting `Socket` constructor throws. Failures surface as construction
errors, never as silently-returned objects. -/
theorem construct_raises_when_all_fail
    (ps : List PassiveIfaceOutcome) (cs : List ConnectIfaceOutcome)
    (hp : ∀ it ∈ ps, it.socketFd = none ∨ it.bindOk = false ∨ it.listenOk = false)
    (hc : ∀ it ∈ cs, it.socketFd = none ∨
      (it.connectRet < 0 ∧ it.connectErrno ≠ EINPROGRESS)) :
    PassiveSockets.construct ps = Except.error "ERROR: no valid interface" ∧
    Socket.construct cs = Except.error "ERROR: no valid interface" := by
  have h1 : passiveLoop ps = [] := by
    induction ps with
    | nil => rfl
    | cons it rest ih =>
      have hit := hp it (List.mem_cons_self it rest)
      have hrest := ih fun x hx => hp x (List.mem_cons_of_mem it hx)
      rcases hfd : it.socketFd with _ | fd
      · simp [passiveLoop, hfd, hrest]
      · rcases hit with h | h | h
        · simp [h] at hfd
        · simp [passiveLoop, hfd, h, hrest]
        · simp [passiveLoop, hfd, h, hrest]
  have h2 : connectLoop cs = -1 := by
    induction cs with
    | nil => rfl
    | cons it rest ih =>
      have hit := hc it (List.mem_cons_self it rest)
      have hrest := ih fun x hx => hc x (List.mem_cons_of_mem it hx)
      rcases hfd : it.socketFd with _ | fd
      · simp [connectLoop, hfd, hrest]
      · rcases hit with h | h
        · simp [h] at hfd
        · simp [connectLoop, hfd, h, hrest]
  constructor
  · simp [PassiveSockets.construct, h1]
  · simp [Socket.construct, h2]

/-- Witness for C6: one interface whose bind fails, one whose connect is
refused (ECONNREFUSED = 111) — both constructors throw. -/
theorem construct_raises_when_all_fail_witness :
    PassiveSockets.construct [⟨some 4, false, true⟩]
        = Except.error "ERROR: no valid interface" ∧
    Socket.construct [⟨some 5, -1, 111⟩]
        = Except.error "ERROR: no valid interface" :=
  construct_raises_when_all_fail [⟨some 4, false, true⟩] [⟨some 5, -1, 111⟩]
    (by intro it hit; simp at hit; simp [hit])
    (by intro it hit; simp at hit; simp [hit, EINPROGRESS])

/-- The outcome of the `accept4` call: its return value and, when
negative, the errno it set. -/
structure AcceptOutcome where
  ret : Int
  errno : Nat
deriving DecidableEq, Repr

/-- `Socket::accept(int fd, int flags)`: assign `accept4`'s result to
`socket.fd_`; if negative with EAGAIN/EWOULDBLOCK, return the socket as
is; `SLICK_CHECK_ERRNO(socket.fd_ >= 0, ...)` raises on any other
negative result; otherwise run `socket.init()` and return. The returned
Bool records whether `init()` ran. -/
def Socket.acceptCall (o : AcceptOutcome) : Except String (Socket × Bool) :=
  if o.ret < 0 ∧ (o.errno = EAGAIN ∨ o.errno = EWOULDBLOCK) then
    Except.ok ({ fd := o.ret, addr := 0, addrlen := 0 }, false)
  else if o.ret < 0 then Except.error "Socket.accept"
  else Except.ok ({ fd := o.ret, addr := 0, addrlen := 0 }, true)

/-- C9. When `accept4` fails with EAGAIN/EWOULDBLOCK, `Socket::accept`
returns a socket with a negative fd without raising and without running
`init()`; every other `accept4` failure raises. -/
theorem accept_wouldblock_not_raised (o : AcceptOutcome) (h : o.ret < 0) :
    ((o.errno = EAGAIN ∨ o.errno = EWOULDBLOCK) →
      ∃ s, Socket.acceptCall o = Except.ok (s, false) ∧ s.fd < 0) ∧
    (o.errno ≠ EAGAIN ∧ o.errno ≠ EWOULDBLOCK →
      Socket.acceptCall o = Except.error "Socket.accept") := by
  constructor
  · intro he
    refine ⟨{ fd := o.ret, addr := 0, addrlen := 0 }, ?_, h⟩
    rw [Socket.acceptCall, if_pos ⟨h, he⟩]
  · intro he
    have hneg : ¬(o.ret < 0 ∧ (o.errno = EAGAIN ∨ o.errno = EWOULDBLOCK)) := by
      tauto
    rw [Socket.acceptCall, if_neg hneg, if_pos h]

/-- Witness for C9 at a concrete would-block outcome. -/
theorem accept_wouldblock_not_raised_witness :
    ∃ s, Socket.acceptCall ⟨-1, 11⟩ = Except.ok (s, false) ∧ s.fd < 0 :=
  (accept_wouldblock_not_raised ⟨-1, 11⟩ (by decide)).1 (Or.inl rfl)

/-- `Socket::Socket(Socket&& other)`: copy the fields, then
`other.fd_ = -1`. Returns (constructed socket, moved-from socket). -/
def Socket.moveCtor (other : Socket) : Socket × Socket :=
  ({ fd := other.fd, addr := other.addr, addrlen := other.addrlen },
   { other with fd := -1 })

/-- `Socket::operator=(Socket&&)`: take the fields, set
`other.fd_ = -1`. Returns (assigned-to socket, moved-from socket). -/
def Socket.moveAssign (dst src : Socket) : Socket × Socket :=
  ({ dst with fd := src.fd, addr := src.addr, addrlen := src.addrlen },
   { src with fd := -1 })

/-- `Socket::~Socket`: `if (fd_ < 0) return;` — only then shutdown and
close. True iff the destructor performs the shutdown/close pair. -/
def Socket.dtorCloses (s : Socket) : Bool :=
  if s.fd < 0 then false else true

/-- A chain of `n` move-constructions starting from `s`: the list of all
sockets that ever existed (each moved-from socket plus the final
holder). -/
def Socket.moveChain : Socket → Nat → List Socket
  | s, 0 => [s]
  | s, n + 1 =>
    (Socket.moveCtor s).2 :: Socket.moveChain (Socket.moveCtor s).1 n

/-- C10. Move-construction and move-assignment leave the moved-from
socket with fd = -1; the destructor is a no-op on a negative fd; hence
along any chain of moves at most one of the sockets ever shuts down and
closes the underlying descriptor. -/
theorem socket_move_single_close (s d : Socket) (n : Nat) :
    (Socket.moveCtor s).2.fd = -1 ∧
    (Socket.moveAssign d s).2.fd = -1 ∧
    (s.fd < 0 → Socket.dtorCloses s = false) ∧
    (Socket.moveChain s n).countP Socket.dtorCloses ≤ 1 := by
  refine ⟨rfl, rfl, ?_, ?_⟩
  · intro h
    simp [Socket.dtorCloses, h]
  · induction n generalizing s with
    | zero =>
      simp only [Socket.moveChain, List.countP_cons, List.countP_nil]
      split <;> omega
    | succ n ih =>
      have hdrop : Socket.dtorCloses (Socket.moveCtor s).2 = false := by
        simp [Socket.moveCtor, Socket.dtorCloses]
      simp only [Socket.moveChain, List.countP_cons, hdrop]
      simpa using ih (Socket.moveCtor s).1

/-- Witness for C10 at a concrete moved-from socket. -/
theorem socket_move_single_close_witness :
    Socket.dtorCloses { fd := -1, addr := 0, addrlen := 0 } = false :=
  (socket_move_single_close ⟨-1, 0, 0⟩ ⟨7, 0, 0⟩ 2).2.2.1 (by decide)

end Slick
